import Mathlib

/-!
Shallow embedding of `src/apply.py`, a command-line utility that lists
"feature" directories in a remote GitHub repository, lets the user pick
some of them, and downloads the contained files into a local directory.

Effectful parts of the program (HTTP requests, filesystem writes,
environment variables, user input) are modelled by explicit oracles and
state: the remote catalog is a finite tree of entries, the network is a
function from URLs to `Except`-valued responses, the local filesystem is
a record of directories and file contents, and the process environment
is an association list.  Python string primitives (`str.strip`,
`str.lower`, `str.split`, `int(...)`) are modelled for ASCII input by
executable functions over `List Char`, so that every definition evaluates
by kernel reduction; Python string truthiness (`if s:`) is modelled as
`s ≠ ""`.
-/

namespace Apply

/-! ### Constants (lines 17-26 of apply.py) -/

/-- Mirrors `REPO` in apply.py. -/
def REPO : String := "python-boilerplate/features-database"

/-- Mirrors `BRANCH` in apply.py. -/
def BRANCH : String := "main"

/-- Mirrors `FEATURES_DIR` in apply.py. -/
def FEATURES_DIR : String := "features"

/-- Mirrors `RAW_URL` in apply.py. -/
def RAW_URL : String :=
  "https://raw.githubusercontent.com/" ++ REPO ++ "/" ++ BRANCH ++ "/" ++ FEATURES_DIR

/-- Models `environs.Env.str(name)` with no default: returns the value of the
environment variable when it is set, and raises `environs.EnvError`
("Environment variable not set") when it is absent.  The process environment
(after `env.read_env`) is an association list from variable names to values. -/
def env_str (environ : List (String × String)) (name : String) : Except String String :=
  match environ.lookup name with
  | some v => Except.ok v
  | none => Except.error ("Environment variable " ++ name ++ " not set")

/-- Models module-level startup of apply.py (lines 24-26):
`GITHUB_TOKEN = env.str("GITHUB_API_TOKEN")` followed by
`HEADERS = {"Authorization": f"token {GITHUB_TOKEN}"} if GITHUB_TOKEN else None`.
Returns the computed `HEADERS` value, or the startup error when `env.str`
raises.  `none` headers means requests are issued with no Authorization
header (unauthenticated). -/
def startup_headers (environ : List (String × String)) :
    Except String (Option (List (String × String))) :=
  match env_str environ "GITHUB_API_TOKEN" with
  | Except.error e => Except.error e
  | Except.ok tok =>
      Except.ok (if tok ≠ "" then some [("Authorization", "token " ++ tok)] else none)

/-! ### Python string primitives (ASCII model) -/

/-- The ASCII whitespace characters `str.strip` (and `int`) remove:
space, tab, newline, carriage return, vertical tab, form feed. -/
def isPySpace (c : Char) : Bool :=
  c = ' ' || c = '\t' || c = '\n' || c = '\r' || c = '\x0b' || c = '\x0c'

/-- Python `str.strip()` on a character list: whitespace removed from both
ends. -/
def stripChars (cs : List Char) : List Char :=
  ((cs.dropWhile isPySpace).reverse.dropWhile isPySpace).reverse

/-- Python `str.split(sep)` for a one-character separator, on character
lists: `splitChar sep cs []` is the list of (possibly empty) chunks of `cs`
between occurrences of `sep`; splitting the empty list yields `[[]]`, as
`"".split(",") == [""]` in Python. -/
def splitChar (sep : Char) : List Char → List Char → List (List Char)
  | [], acc => [acc.reverse]
  | c :: cs, acc =>
      if c = sep then acc.reverse :: splitChar sep cs []
      else splitChar sep cs (c :: acc)

/-- Python `str.strip()` as a `String` to `String` function. -/
def pyStrip (s : String) : String := String.mk (stripChars s.data)

/-- Python `str.lower()` for ASCII strings. -/
def pyLower (s : String) : String := String.mk (s.data.map Char.toLower)

/-- Python `str.split(sep)` for a one-character separator, as a `String` to
`List String` function. -/
def pySplit (sep : Char) (s : String) : List String :=
  (splitChar sep s.data []).map String.mk

/-! ### Python `int` parsing (used by `get_user_feature_selection`) -/

/-- Continues parsing a Python integer literal after at least one digit has
been consumed: further digits accumulate, and a single underscore is allowed
only between two digits (`int("1_0") = 10`, while `int("1_")` and
`int("1__0")` raise `ValueError`). -/
def pyDigitsAux : Nat → List Char → Option Nat
  | acc, [] => some acc
  | acc, [c] => if c.isDigit then some (10 * acc + (c.toNat - 48)) else none
  | acc, c :: d :: cs =>
      if c.isDigit then pyDigitsAux (10 * acc + (c.toNat - 48)) (d :: cs)
      else if c = '_' then
        if d.isDigit then pyDigitsAux (10 * acc + (d.toNat - 48)) cs else none
      else none

/-- Parses a nonempty run of ASCII digits (with single underscores between
digits) as a natural number; the first character must be a digit. -/
def pyDigitsStart : List Char → Option Nat
  | [] => none
  | c :: cs => if c.isDigit then pyDigitsAux (c.toNat - 48) cs else none

/-- Models Python `int(s)` for ASCII input: surrounding whitespace is
stripped, an optional single `+` or `-` sign precedes a nonempty digit
sequence in which single underscores may separate digits; anything else
raises `ValueError`, modelled as `none`. -/
def pyInt (cs : List Char) : Option Int :=
  match stripChars cs with
  | [] => none
  | '+' :: rest => (pyDigitsStart rest).map (fun n => (n : Int))
  | '-' :: rest => (pyDigitsStart rest).map (fun n => -(n : Int))
  | rest => (pyDigitsStart rest).map (fun n => (n : Int))

/-! ### Selection parsing (`get_user_feature_selection`, lines 125-146) -/

/-- The token-parsing phase of `get_user_feature_selection`: Python
`[int(x.strip()) for x in selected.split(",")]`, where a `ValueError` from
any token (modelled as `none`) aborts the whole comprehension. -/
def parsedTokens (selected : String) : Option (List Int) :=
  (splitChar ',' selected.data []).mapM (fun x => pyInt (stripChars x))

/-- The validated-indexing phase of `get_user_feature_selection`: the parsed
token values are shifted to zero-based indices, each index is checked
against `0 <= idx < len(features)` (an out-of-range index raises
`ValueError`, caught by the surrounding handler, yielding `[]`), and a fully
valid index list selects `[features[i] for i in indices]`. -/
def select_by_indices (features : List String) (vals : List Int) : List String :=
  if (vals.map (fun v => v - 1)).all
      (fun idx => decide (0 ≤ idx) && decide (idx < (features.length : Int)))
  then (vals.map (fun v => v - 1)).map (fun i => features.getD i.toNat "")
  else []

/-- Models `get_user_feature_selection(features)` applied to the raw string
`selected` read from the prompt.  `'all'` (after `.lower().strip()`) returns
the whole feature list; otherwise the comma-separated tokens are parsed as
integers (a `ValueError`, modelled by `none`, is caught and yields `[]`) and
the validated indices select the features. -/
def get_user_feature_selection (features : List String) (selected : String) :
    List String :=
  if pyStrip (pyLower selected) = "all" then features
  else
    match parsedTokens selected with
    | none => []
    | some vals => select_by_indices features vals

/-! ### Remote catalog (`fetch_feature_files`, lines 50-84) -/

/-- One entry of the JSON array returned by the GitHub "contents" endpoint:
a `name`, a `type` string (`"file"`, `"dir"`, or anything else such as
`"symlink"` or `"submodule"`), and — when the entry is a directory — the
listing the endpoint would return for the nested path.  Modelling the nested
listing in place makes the remote a finite tree, which is what the source's
unbounded recursion relies on. -/
inductive RemoteEntry : Type where
  | mk : String → String → List RemoteEntry → RemoteEntry

/-- The `name` field of a remote entry. -/
def RemoteEntry.name : RemoteEntry → String
  | RemoteEntry.mk n _ _ => n

/-- The `type` field of a remote entry. -/
def RemoteEntry.kind : RemoteEntry → String
  | RemoteEntry.mk _ t _ => t

/-- The listing of a directory entry's nested path. -/
def RemoteEntry.children : RemoteEntry → List RemoteEntry
  | RemoteEntry.mk _ _ cs => cs

/-- Models `fetch_feature_files(feature_name)` where `listing` is the JSON
array the contents endpoint returns for `feature_name`.  For each item in
order: if `item["type"] == "file"` its name is appended; if
`item["type"] == "dir"` the function recurses on
`f"{feature_name}/{item['name']}"` (whose listing is the entry's children)
and every returned sub-path is prefixed with `f"{item['name']}/"`. -/
def fetch_feature_files (feature_name : String) : List RemoteEntry → List String
  | [] => []
  | RemoteEntry.mk name ty children :: rest =>
      ((if ty = "file" then [name] else []) ++
        (if ty = "dir" then
          (fetch_feature_files (feature_name ++ "/" ++ name) children).map
            (fun sub => name ++ "/" ++ sub)
        else [])) ++
      fetch_feature_files feature_name rest

/-! ### Local filesystem model -/

/-- A filesystem path as a list of segments (`Path("out") / "sub/helper.py"`
is `["out", "sub", "helper.py"]`). -/
abbrev FilePath' := List String

/-- Local filesystem state: the set of existing directories and a map from
file paths to byte contents (represented as a list with the most recent
write first, as `open(path, "wb")` truncates). -/
structure FS : Type where
  dirs : List FilePath'
  files : List (FilePath' × List Nat)
  deriving DecidableEq, Repr

/-- Reading a file back: the most recent write to that path. -/
def FS.readFile (fs : FS) (p : FilePath') : Option (List Nat) :=
  fs.files.lookup p

/-- All nonempty prefixes of a path: the chain of directories
`os.makedirs` creates. -/
def pathPrefixes : FilePath' → List FilePath'
  | [] => []
  | s :: rest => [s] :: (pathPrefixes rest).map (fun q => s :: q)

/-- Models `path.parent.mkdir(parents=True, exist_ok=True)`: every prefix of
the parent directory of `p` is added to the set of existing directories. -/
def FS.mkdirParents (fs : FS) (p : FilePath') : FS :=
  { fs with dirs := pathPrefixes p.dropLast ++ fs.dirs }

/-- Models a successful `open(path, "wb")` write: the new contents become
the current contents of `p`.  Directories are unchanged. -/
def FS.writeFile (fs : FS) (p : FilePath') (bytes : List Nat) : FS :=
  { fs with files := (p, bytes) :: fs.files }

/-- Whether `open(path, "wb")` followed by the write succeeds: the parent
directory must exist (the empty parent is the current directory, which
always exists) and the environment oracle `writeOk` must not inject an
`OSError` (permissions, disk full). -/
def FS.canWrite (writeOk : FilePath' → Bool) (fs : FS) (p : FilePath') : Bool :=
  (decide (p.dropLast = []) || fs.dirs.contains p.dropLast) && writeOk p

/-! ### File download (`download_feature_file`, lines 87-110, and the
per-file body of `download_feature_files`, lines 176-190) -/

/-- The network oracle: maps a URL to the raw response body, or to a
`RequestException`/HTTP error. -/
abbrev Net := String → Except Unit (List Nat)

/-- Models `download_feature_file(url, path)`: GET the URL
(`raise_for_status` on failure), then write the full `response.content` to
`path`.  Returns the updated filesystem and whether the call completed
without raising (`false` covers both the network error and the `OSError`
from the write). -/
def download_feature_file (net : Net) (writeOk : FilePath' → Bool)
    (fs : FS) (url : String) (path : FilePath') : FS × Bool :=
  match net url with
  | Except.error _ => (fs, false)
  | Except.ok bytes =>
      if fs.canWrite writeOk path then (fs.writeFile path bytes, true)
      else (fs, false)

/-- Models one iteration of the inner `for file in feature_files` loop of
`download_feature_files` (without the counters): build the raw URL and the
destination path, create the destination's parent directories (line 183 of
apply.py), then call `download_feature_file`; the surrounding `try/except`
converts a network or write failure into `false`. -/
def attempt_file (net : Net) (writeOk : FilePath' → Bool)
    (target_dir : FilePath') (feature file : String) (fs : FS) : FS × Bool :=
  let file_url := RAW_URL ++ "/" ++ feature ++ "/" ++ file
  let file_path := target_dir ++ pySplit '/' file
  let fs1 := fs.mkdirParents file_path
  download_feature_file net writeOk fs1 file_url file_path

/-! ### Download loop (`download_feature_files`, lines 164-194) -/

/-- The per-feature file-listing oracle: what `fetch_feature_files(feature)`
returns inside `download_feature_files`, or the `RequestException` it
raises. -/
abbrev ListFiles := String → Except Unit (List String)

/-- The inner `for file in feature_files` loop of `download_feature_files`:
for each file, `total_files` is incremented, the download is attempted, and
`successful_downloads` is incremented when it succeeds; a failed file leaves
the counters and continues with the next file. -/
def process_files (net : Net) (writeOk : FilePath' → Bool)
    (target_dir : FilePath') (feature : String) :
    List String → FS → Nat → Nat → FS × Nat × Nat
  | [], fs, total, succ => (fs, total, succ)
  | file :: rest, fs, total, succ =>
      let r := attempt_file net writeOk target_dir feature file fs
      process_files net writeOk target_dir feature rest r.1 (total + 1)
        (if r.2 then succ + 1 else succ)

/-- The outer `for feature in chosen_features` loop of
`download_feature_files`: a `RequestException` from `fetch_feature_files`
for one feature is caught and iteration continues with the next feature. -/
def download_loop (net : Net) (writeOk : FilePath' → Bool)
    (listFiles : ListFiles) (target_dir : FilePath') :
    List String → FS → Nat → Nat → FS × Nat × Nat
  | [], fs, total, succ => (fs, total, succ)
  | feature :: rest, fs, total, succ =>
      match listFiles feature with
      | Except.error _ =>
          download_loop net writeOk listFiles target_dir rest fs total succ
      | Except.ok files =>
          let r := process_files net writeOk target_dir feature files fs total succ
          download_loop net writeOk listFiles target_dir rest r.1 r.2.1 r.2.2

/-- Models `download_feature_files(chosen_features, target_dir)`: both
counters start at zero and the final pair `(total_files,
successful_downloads)` is returned along with the filesystem. -/
def download_feature_files (net : Net) (writeOk : FilePath' → Bool)
    (listFiles : ListFiles) (chosen_features : List String)
    (target_dir : FilePath') (fs : FS) : FS × Nat × Nat :=
  download_loop net writeOk listFiles target_dir chosen_features fs 0 0

/-- The number of download attempts one feature contributes: the length of
its file listing when `fetch_feature_files` succeeds, zero when it raises. -/
def feature_count (listFiles : ListFiles) (f : String) : Nat :=
  match listFiles f with
  | Except.ok l => l.length
  | Except.error _ => 0

/-- The number of download attempts the source makes for a run: one per file
of every chosen feature whose file listing succeeds (a feature whose
`fetch_feature_files` call raises contributes no attempts). -/
def expected_total (listFiles : ListFiles) (chosen_features : List String) : Nat :=
  (chosen_features.map (feature_count listFiles)).sum

/-! ### Target directory (`setup_target_directory`, lines 149-161) -/

/-- Models `os.makedirs(target_dir, exist_ok=True)` succeeding: the current
directory `"."` always exists, an already-existing directory is not an error
(`exist_ok=True`), and otherwise the `canCreate` oracle decides whether
creation raises `OSError`. -/
def makedirs_ok (existing : List String) (canCreate : String → Bool)
    (target_dir : String) : Bool :=
  decide (target_dir = ".") || existing.contains target_dir || canCreate target_dir

/-- Models `setup_target_directory()` applied to the raw prompt response:
`rawInput.strip() or "."` resolves the directory name (Python `or` takes
`"."` exactly when the stripped string is empty), then `os.makedirs` is
attempted; on success the directory name is returned, and a caught `OSError`
yields the failure marker `""`. -/
def setup_target_directory (existing : List String) (canCreate : String → Bool)
    (rawInput : String) : String :=
  let target_dir := if pyStrip rawInput = "" then "." else pyStrip rawInput
  if makedirs_ok existing canCreate target_dir then target_dir else ""

/-- Models the tail of `main()` after the feature selection: the target
directory is resolved, and `if not target_dir: return` aborts (`none`)
before `download_feature_files` is ever called; otherwise the download runs
and its statistics are returned. -/
def run_download_phase (net : Net) (writeOk : FilePath' → Bool)
    (listFiles : ListFiles) (existing : List String) (canCreate : String → Bool)
    (chosen_features : List String) (rawDirInput : String) (fs : FS) :
    Option (FS × Nat × Nat) :=
  let target_dir := setup_target_directory existing canCreate rawDirInput
  if target_dir = "" then none
  else some (download_feature_files net writeOk listFiles chosen_features
    (pySplit '/' target_dir) fs)

/-! ### Summary classification (`display_summary`, lines 197-211) -/

/-- The three qualitative messages `display_summary` can end with. -/
inductive SummaryMessage : Type where
  | allSucceeded : SummaryMessage
  | partiallyCompleted : Nat → Nat → SummaryMessage
  | noFilesDownloaded : SummaryMessage
  deriving DecidableEq, Repr

/-- Models the `if`/`elif`/`else` classification at the end of
`display_summary(total_files, successful_downloads)`: "all selected features
have been applied successfully" when `successful_downloads == total_files and
total_files > 0`, "partially completed s/t" when `successful_downloads > 0`
otherwise, and "no files were downloaded" in the remaining case. -/
def display_summary (total_files successful_downloads : Nat) : SummaryMessage :=
  if successful_downloads = total_files ∧ 0 < total_files then
    SummaryMessage.allSucceeded
  else if 0 < successful_downloads then
    SummaryMessage.partiallyCompleted successful_downloads total_files
  else
    SummaryMessage.noFilesDownloaded

/-!
## Theorems

Each claim of the specification is settled by one theorem below, stated
over the embedded definitions above.
-/

/-- Claim C1, counterexample: when no `GITHUB_API_TOKEN` variable is present
in the environment at all, module startup raises an environment error
(`env.str("GITHUB_API_TOKEN")` has no default) instead of starting with
unauthenticated requests, so the program does not start. -/
theorem startup_missing_token_fails :
    startup_headers [] ≠ Except.ok none ∧
    startup_headers [] =
      Except.error "Environment variable GITHUB_API_TOKEN not set" := by
  refine ⟨?_, rfl⟩
  intro h
  simp [startup_headers, env_str] at h

/-- Claim C1, amended: the `GITHUB_API_TOKEN` variable must be present for
the program to start; when it is present but empty, requests are issued with
no Authorization header (unauthenticated), when it is present and non-empty
a `token <value>` Authorization header is used, and when it is absent
entirely startup fails with an environment error. -/
theorem startup_token_value_optional (environ : List (String × String)) :
    (environ.lookup "GITHUB_API_TOKEN" = some "" →
      startup_headers environ = Except.ok none) ∧
    (environ.lookup "GITHUB_API_TOKEN" = none →
      startup_headers environ =
        Except.error "Environment variable GITHUB_API_TOKEN not set") ∧
    (∀ tok, environ.lookup "GITHUB_API_TOKEN" = some tok → tok ≠ "" →
      startup_headers environ =
        Except.ok (some [("Authorization", "token " ++ tok)])) := by
  refine ⟨?_, ?_, ?_⟩
  · intro h
    unfold startup_headers env_str
    rw [h]
    simp
  · intro h
    unfold startup_headers env_str
    rw [h]
    rfl
  · intro tok h hne
    unfold startup_headers env_str
    rw [h]
    simp [hne]

/-- Claim C1, witness for the amended theorem: a present-but-empty token
yields unauthenticated startup, and a present non-empty token yields a
bearer header. -/
theorem startup_token_value_optional_witness :
    startup_headers [("GITHUB_API_TOKEN", "")] = Except.ok none ∧
    startup_headers [("GITHUB_API_TOKEN", "abc")] =
      Except.ok (some [("Authorization", "token abc")]) :=
  ⟨(startup_token_value_optional [("GITHUB_API_TOKEN", "")]).1 (by decide),
   (startup_token_value_optional [("GITHUB_API_TOKEN", "abc")]).2.2 "abc"
     (by decide) (by decide)⟩

/-- Claim C8: every input string equal to `"all"` up to letter case and
surrounding whitespace (that is, whose lower-cased, stripped form is `"all"`,
exactly the test `selected.lower().strip() == 'all'` performs) selects the
entire feature list in its original order. -/
theorem selection_all_case (features : List String) (selected : String)
    (h : pyStrip (pyLower selected) = "all") :
    get_user_feature_selection features selected = features := by
  unfold get_user_feature_selection
  rw [if_pos h]

/-- Claim C8, witness: `"  AlL \t"` selects every feature. -/
theorem selection_all_case_witness :
    get_user_feature_selection ["alpha", "beta"] "  AlL \t" = ["alpha", "beta"] :=
  selection_all_case ["alpha", "beta"] "  AlL \t" (by decide)

/-- Claim C3: for every feature list and every selection string other than
`"all"` in which some comma-separated token fails to parse as an integer
(`parsedTokens` returns `none`) or parses to a 1-based index outside
`[1, number_of_features]`, the selection function returns the empty list —
never a partial subset. -/
theorem selection_rejects_invalid (features : List String) (selected : String)
    (hall : pyStrip (pyLower selected) ≠ "all")
    (hbad : ∀ vals, parsedTokens selected = some vals →
      ∃ v ∈ vals, v < 1 ∨ (features.length : Int) < v) :
    get_user_feature_selection features selected = [] := by
  unfold get_user_feature_selection
  rw [if_neg hall]
  cases hp : parsedTokens selected with
  | none => rfl
  | some vals =>
      show select_by_indices features vals = []
      obtain ⟨v, hv, hbadv⟩ := hbad vals hp
      unfold select_by_indices
      rw [if_neg]
      intro hall2
      rw [List.all_eq_true] at hall2
      have hm : v - 1 ∈ vals.map (fun v => v - 1) :=
        List.mem_map.mpr ⟨v, hv, rfl⟩
      have hc := hall2 _ hm
      simp only [Bool.and_eq_true, decide_eq_true_eq] at hc
      omega

/-- Claim C3, witness: with two features, the out-of-range selection `"3"`
is rejected outright. -/
theorem selection_rejects_invalid_witness :
    get_user_feature_selection ["a", "b"] "3" = [] :=
  selection_rejects_invalid ["a", "b"] "3" (by decide)
    (by
      intro vals h
      have e : parsedTokens "3" = some [3] := by decide
      rw [e] at h
      cases Option.some.inj h
      decide)

/-- Claim C7: every selection string (other than `"all"`) all of whose
comma-separated tokens parse as integers with 1-based indices inside
`[1, number_of_features]` selects exactly the features at those indices, in
the order the indices were given, duplicates preserved. -/
theorem selection_valid_indices (features : List String) (selected : String)
    (vals : List Int)
    (hall : pyStrip (pyLower selected) ≠ "all")
    (hp : parsedTokens selected = some vals)
    (hin : ∀ v ∈ vals, 1 ≤ v ∧ v ≤ (features.length : Int)) :
    get_user_feature_selection features selected =
      vals.map (fun v => features.getD (v - 1).toNat "") := by
  have hcond : (vals.map (fun v => v - 1)).all
      (fun idx => decide (0 ≤ idx) && decide (idx < (features.length : Int))) = true := by
    rw [List.all_eq_true]
    intro idx hidx
    rw [List.mem_map] at hidx
    obtain ⟨v, hv, rfl⟩ := hidx
    have h2 := hin v hv
    simp only [Bool.and_eq_true, decide_eq_true_eq]
    omega
  unfold get_user_feature_selection
  rw [if_neg hall, hp]
  show select_by_indices features vals = _
  unfold select_by_indices
  rw [if_pos hcond, List.map_map]
  rfl

/-- Claim C7, witness: the selection `"2, 2,3"` over three features yields
the second feature twice and then the third. -/
theorem selection_valid_indices_witness :
    get_user_feature_selection ["a", "b", "c"] "2, 2,3" = ["b", "b", "c"] :=
  (selection_valid_indices ["a", "b", "c"] "2, 2,3" [2, 2, 3]
    (by decide) (by decide) (by decide)).trans (by decide)

/-- Claim C5: with `successful_downloads ≤ total_files` (the invariant the
download loop guarantees), the summary message is `allSucceeded` exactly
when `successful = total` and `total > 0`, `partiallyCompleted` exactly when
`0 < successful < total`, and `noFilesDownloaded` in every remaining case —
in particular `(total, successful) = (0, 0)` is classified as
`noFilesDownloaded`, not `allSucceeded`. -/
theorem display_summary_classification (total_files successful_downloads : Nat)
    (hle : successful_downloads ≤ total_files) :
    (display_summary total_files successful_downloads = SummaryMessage.allSucceeded ↔
      successful_downloads = total_files ∧ 0 < total_files) ∧
    (display_summary total_files successful_downloads =
        SummaryMessage.partiallyCompleted successful_downloads total_files ↔
      0 < successful_downloads ∧ successful_downloads < total_files) ∧
    (¬(successful_downloads = total_files ∧ 0 < total_files) →
      ¬(0 < successful_downloads ∧ successful_downloads < total_files) →
      display_summary total_files successful_downloads =
        SummaryMessage.noFilesDownloaded) := by
  unfold display_summary
  by_cases h1 : successful_downloads = total_files ∧ 0 < total_files
  · rw [if_pos h1]
    refine ⟨⟨fun _ => h1, fun _ => rfl⟩, ?_, ?_⟩
    · constructor
      · intro h
        exact absurd h (by simp)
      · intro h
        exact absurd h (by omega)
    · intro hc _
      exact absurd h1 hc
  · rw [if_neg h1]
    by_cases h2 : 0 < successful_downloads
    · rw [if_pos h2]
      refine ⟨?_, ?_, ?_⟩
      · constructor
        · intro h
          exact absurd h (by simp)
        · intro h
          exact absurd h h1
      · exact ⟨fun _ => ⟨h2, by omega⟩, fun _ => rfl⟩
      · intro _ hc
        exact absurd ⟨h2, by omega⟩ hc
    · rw [if_neg h2]
      refine ⟨?_, ?_, ?_⟩
      · constructor
        · intro h
          exact absurd h (by simp)
        · intro h
          exact absurd h h1
      · constructor
        · intro h
          exact absurd h (by simp)
        · intro h
          exact absurd h.1 h2
      · intro _ _
        rfl

/-- Claim C5, witness: `(5, 2)` is classified as partially completed and
`(0, 0)` as no files downloaded. -/
theorem display_summary_classification_witness :
    display_summary 5 2 = SummaryMessage.partiallyCompleted 2 5 ∧
    display_summary 0 0 = SummaryMessage.noFilesDownloaded :=
  ⟨((display_summary_classification 5 2 (by decide)).2.1).mpr (by decide),
   (display_summary_classification 0 0 (by decide)).2.2 (by decide) (by decide)⟩

/-- Claim C2: whenever the per-file download step of `download_feature_files`
completes successfully, every missing parent directory of the destination
path has been created and the destination holds exactly the bytes of the
remote response body, so reading it back reproduces the response byte for
byte. -/
theorem download_roundtrip (net : Net) (writeOk : FilePath' → Bool)
    (target_dir : FilePath') (feature file : String) (fs : FS) (bytes : List Nat)
    (hnet : net (RAW_URL ++ "/" ++ feature ++ "/" ++ file) = Except.ok bytes)
    (hok : (attempt_file net writeOk target_dir feature file fs).2 = true) :
    (attempt_file net writeOk target_dir feature file fs).1.readFile
        (target_dir ++ pySplit '/' file) = some bytes ∧
    ∀ q ∈ pathPrefixes (target_dir ++ pySplit '/' file).dropLast,
      q ∈ (attempt_file net writeOk target_dir feature file fs).1.dirs := by
  have key : attempt_file net writeOk target_dir feature file fs =
      (if FS.canWrite writeOk (fs.mkdirParents (target_dir ++ pySplit '/' file))
          (target_dir ++ pySplit '/' file)
       then ((fs.mkdirParents (target_dir ++ pySplit '/' file)).writeFile
          (target_dir ++ pySplit '/' file) bytes, true)
       else (fs.mkdirParents (target_dir ++ pySplit '/' file), false)) := by
    simp only [attempt_file, download_feature_file]
    rw [hnet]
  by_cases hw : FS.canWrite writeOk (fs.mkdirParents (target_dir ++ pySplit '/' file))
      (target_dir ++ pySplit '/' file)
  · rw [key, if_pos hw]
    constructor
    · simp [FS.readFile, FS.writeFile]
    · intro q hq
      simp only [FS.writeFile, FS.mkdirParents]
      exact List.mem_append.mpr (Or.inl hq)
  · rw [key, if_neg hw] at hok
    simp at hok

/-- Claim C2, witness: downloading `sub/helper.py` of feature `auth` into
`out` on an empty filesystem stores the response bytes at
`out/sub/helper.py`, creates the directories `out` and `out/sub`, and
reading the file back returns the response bytes. -/
theorem download_roundtrip_witness :
    (attempt_file (fun _ => Except.ok [1, 2, 3]) (fun _ => true) ["out"] "auth"
        "sub/helper.py" ⟨[], []⟩).1.readFile (["out"] ++ pySplit '/' "sub/helper.py") =
      some [1, 2, 3] ∧
    ∀ q ∈ pathPrefixes ((["out"] ++ pySplit '/' "sub/helper.py").dropLast),
      q ∈ (attempt_file (fun _ => Except.ok [1, 2, 3]) (fun _ => true) ["out"] "auth"
        "sub/helper.py" ⟨[], []⟩).1.dirs :=
  download_roundtrip (fun _ => Except.ok [1, 2, 3]) (fun _ => true) ["out"] "auth"
    "sub/helper.py" ⟨[], []⟩ [1, 2, 3] rfl (by decide)

/-- Claim C4: `fetch_feature_files` maps each remote entry in listing order
to its name when its type is `"file"`, and, when its type is `"dir"`, to the
recursive listing of `featureName + "/" + entryName` with every sub-path
prefixed by `entryName + "/"`; on the example feature containing `main.py`
and a directory `sub` holding `helper.py` it returns
`["main.py", "sub/helper.py"]`. -/
theorem fetch_feature_files_spec :
    (∀ (feature_name : String) (listing : List RemoteEntry),
      fetch_feature_files feature_name listing =
        listing.flatMap (fun e =>
          (if e.kind = "file" then [e.name] else []) ++
          (if e.kind = "dir" then
            (fetch_feature_files (feature_name ++ "/" ++ e.name) e.children).map
              (fun sub => e.name ++ "/" ++ sub)
          else []))) ∧
    fetch_feature_files "auth"
      [RemoteEntry.mk "main.py" "file" [],
       RemoteEntry.mk "sub" "dir" [RemoteEntry.mk "helper.py" "file" []]] =
      ["main.py", "sub/helper.py"] := by
  constructor
  · intro feature_name listing
    induction listing with
    | nil => simp [fetch_feature_files]
    | cons e rest ih =>
        cases e with
        | mk name ty children =>
            simp only [fetch_feature_files, List.flatMap_cons, RemoteEntry.kind,
              RemoteEntry.name, RemoteEntry.children, ih]
  · simp [fetch_feature_files]

/-- Claim C10: a remote entry whose type is neither `"file"` nor `"dir"`
(a symlink or submodule, say) contributes nothing to `fetch_feature_files`:
the result is the same as without the entry, and it is not recursed into. -/
theorem fetch_skips_unknown_types (feature_name name ty : String)
    (children rest : List RemoteEntry)
    (hf : ty ≠ "file") (hd : ty ≠ "dir") :
    fetch_feature_files feature_name (RemoteEntry.mk name ty children :: rest) =
      fetch_feature_files feature_name rest := by
  simp only [fetch_feature_files, if_neg hf, if_neg hd]
  simp

/-- Claim C10, witness: a `"symlink"` entry with a file inside is skipped
entirely. -/
theorem fetch_skips_unknown_types_witness :
    fetch_feature_files "x"
      [RemoteEntry.mk "lnk" "symlink" [RemoteEntry.mk "inner.py" "file" []]] =
    fetch_feature_files "x" [] :=
  fetch_skips_unknown_types "x" "lnk" "symlink"
    [RemoteEntry.mk "inner.py" "file" []] [] (by decide) (by decide)

/-- Auxiliary invariant of the inner download loop: the total counter grows
by exactly the number of files, and the success counter grows monotonically
by at most the number of files. -/
theorem process_files_counts (net : Net) (writeOk : FilePath' → Bool)
    (target_dir : FilePath') (feature : String) (files : List String) :
    ∀ (fs : FS) (total succ : Nat),
      (process_files net writeOk target_dir feature files fs total succ).2.1 =
        total + files.length ∧
      succ ≤ (process_files net writeOk target_dir feature files fs total succ).2.2 ∧
      (process_files net writeOk target_dir feature files fs total succ).2.2 ≤
        succ + files.length := by
  induction files with
  | nil =>
      intro fs total succ
      simp [process_files]
  | cons file rest ih =>
      intro fs total succ
      simp only [process_files]
      have hb : succ ≤ (if (attempt_file net writeOk target_dir feature file fs).2
            then succ + 1 else succ) ∧
          (if (attempt_file net writeOk target_dir feature file fs).2
            then succ + 1 else succ) ≤ succ + 1 := by
        by_cases hc2 : (attempt_file net writeOk target_dir feature file fs).2 = true
        · rw [if_pos hc2]
          omega
        · rw [if_neg hc2]
          omega
      obtain ⟨hb1, hb2⟩ := hb
      obtain ⟨e1, e2, e3⟩ := ih (attempt_file net writeOk target_dir feature file fs).1
        (total + 1)
        (if (attempt_file net writeOk target_dir feature file fs).2 then succ + 1 else succ)
      simp only [List.length_cons]
      omega

/-- Auxiliary invariant of the outer download loop: the total counter grows
by exactly `expected_total` and the success counter by at most that, whatever
the network, filesystem and listing oracles do. -/
theorem download_loop_counts (net : Net) (writeOk : FilePath' → Bool)
    (listFiles : ListFiles) (target_dir : FilePath') (chosen : List String) :
    ∀ (fs : FS) (total succ : Nat),
      (download_loop net writeOk listFiles target_dir chosen fs total succ).2.1 =
        total + expected_total listFiles chosen ∧
      succ ≤ (download_loop net writeOk listFiles target_dir chosen fs total succ).2.2 ∧
      (download_loop net writeOk listFiles target_dir chosen fs total succ).2.2 ≤
        succ + expected_total listFiles chosen := by
  induction chosen with
  | nil =>
      intro fs total succ
      simp [download_loop, expected_total]
  | cons feature rest ih =>
      intro fs total succ
      have hcount : expected_total listFiles (feature :: rest) =
          feature_count listFiles feature + expected_total listFiles rest := by
        simp [expected_total]
      cases hf : listFiles feature with
      | error err =>
          have hz : feature_count listFiles feature = 0 := by
            simp [feature_count, hf]
          have hstep : download_loop net writeOk listFiles target_dir
              (feature :: rest) fs total succ =
              download_loop net writeOk listFiles target_dir rest fs total succ := by
            simp only [download_loop]
            rw [hf]
          obtain ⟨e1, e2, e3⟩ := ih fs total succ
          rw [hstep, hcount, hz]
          refine ⟨?_, ?_, ?_⟩ <;> omega
      | ok files =>
          have hn : feature_count listFiles feature = files.length := by
            simp [feature_count, hf]
          have hstep : download_loop net writeOk listFiles target_dir
              (feature :: rest) fs total succ =
              download_loop net writeOk listFiles target_dir rest
                (process_files net writeOk target_dir feature files fs total succ).1
                (process_files net writeOk target_dir feature files fs total succ).2.1
                (process_files net writeOk target_dir feature files fs total succ).2.2 := by
            simp only [download_loop]
            rw [hf]
          obtain ⟨p1, p2, p3⟩ :=
            process_files_counts net writeOk target_dir feature files fs total succ
          obtain ⟨e1, e2, e3⟩ := ih
            (process_files net writeOk target_dir feature files fs total succ).1
            (process_files net writeOk target_dir feature files fs total succ).2.1
            (process_files net writeOk target_dir feature files fs total succ).2.2
          rw [hstep, hcount, hn]
          refine ⟨?_, ?_, ?_⟩ <;> omega

/-- Claim C6: `download_feature_files` attempts every file of every chosen
feature: the returned `total_files` equals the summed listing lengths of the
features whose listing succeeded, regardless of how many individual
downloads fail (no failure aborts the iteration), and the returned pair
always satisfies `successful_downloads ≤ total_files`. -/
theorem download_attempts_every_file (net : Net) (writeOk : FilePath' → Bool)
    (listFiles : ListFiles) (chosen_features : List String) (target_dir : FilePath')
    (fs : FS) :
    (download_feature_files net writeOk listFiles chosen_features target_dir fs).2.2 ≤
      (download_feature_files net writeOk listFiles chosen_features target_dir fs).2.1 ∧
    (download_feature_files net writeOk listFiles chosen_features target_dir fs).2.1 =
      expected_total listFiles chosen_features := by
  obtain ⟨e1, e2, e3⟩ :=
    download_loop_counts net writeOk listFiles target_dir chosen_features fs 0 0
  unfold download_feature_files
  constructor <;> omega

/-- Claim C9: `setup_target_directory` resolves empty or whitespace-only
input to the current directory `"."`; an already-existing directory is a
success regardless of whether creation would work (idempotent
`exist_ok=True`); a creation failure yields the failure marker `""` rather
than an exception; and that marker makes the orchestrator return before any
download is attempted. -/
theorem setup_target_directory_spec (existing : List String)
    (canCreate : String → Bool) (rawInput : String) (net : Net)
    (writeOk : FilePath' → Bool) (listFiles : ListFiles)
    (chosen_features : List String) (fs : FS) :
    (pyStrip rawInput = "" →
      setup_target_directory existing canCreate rawInput = ".") ∧
    (pyStrip rawInput ≠ "" → existing.contains (pyStrip rawInput) = true →
      setup_target_directory existing canCreate rawInput = pyStrip rawInput) ∧
    (makedirs_ok existing canCreate
        (if pyStrip rawInput = "" then "." else pyStrip rawInput) = false →
      setup_target_directory existing canCreate rawInput = "") ∧
    (setup_target_directory existing canCreate rawInput = "" →
      run_download_phase net writeOk listFiles existing canCreate chosen_features
        rawInput fs = none) := by
  refine ⟨?_, ?_, ?_, ?_⟩
  · intro h
    simp only [setup_target_directory]
    rw [if_pos h]
    have : makedirs_ok existing canCreate "." = true := by
      simp [makedirs_ok]
    rw [if_pos this]
  · intro h hc
    simp only [setup_target_directory]
    rw [if_neg h]
    have : makedirs_ok existing canCreate (pyStrip rawInput) = true := by
      simp only [makedirs_ok, Bool.or_eq_true]
      exact Or.inl (Or.inr hc)
    rw [if_pos this]
  · intro h
    simp only [setup_target_directory]
    rw [h]
    simp
  · intro h
    simp only [run_download_phase]
    rw [h]
    simp

/-- Claim C9, witness: whitespace-only input resolves to `"."`; the existing
directory `out` is accepted without creating anything; an uncreatable
directory yields the empty failure marker; and with that input the download
phase never runs. -/
theorem setup_target_directory_spec_witness :
    setup_target_directory [] (fun _ => false) "   " = "." ∧
    setup_target_directory ["out"] (fun _ => false) " out " = "out" ∧
    setup_target_directory [] (fun _ => false) "nope" = "" ∧
    run_download_phase (fun _ => Except.ok [1]) (fun _ => true)
      (fun _ => Except.ok ["main.py"]) [] (fun _ => false) ["auth"] "nope"
      ⟨[], []⟩ = none :=
  ⟨(setup_target_directory_spec [] (fun _ => false) "   " (fun _ => Except.ok [1])
      (fun _ => true) (fun _ => Except.ok ["main.py"]) ["auth"] ⟨[], []⟩).1 (by decide),
   (setup_target_directory_spec ["out"] (fun _ => false) " out " (fun _ => Except.ok [1])
      (fun _ => true) (fun _ => Except.ok ["main.py"]) ["auth"] ⟨[], []⟩).2.1
     (by decide) (by decide),
   (setup_target_directory_spec [] (fun _ => false) "nope" (fun _ => Except.ok [1])
      (fun _ => true) (fun _ => Except.ok ["main.py"]) ["auth"] ⟨[], []⟩).2.2.1
     (by decide),
   (setup_target_directory_spec [] (fun _ => false) "nope" (fun _ => Except.ok [1])
      (fun _ => true) (fun _ => Except.ok ["main.py"]) ["auth"] ⟨[], []⟩).2.2.2
     ((setup_target_directory_spec [] (fun _ => false) "nope" (fun _ => Except.ok [1])
      (fun _ => true) (fun _ => Except.ok ["main.py"]) ["auth"] ⟨[], []⟩).2.2.1
     (by decide))⟩

end Apply
